import Mathlib

/-!
Verification development for the unified Teams alert script (`alert.py`) and
the custom Prometheus exporter (`custom_exporter.py`).

The Python code is shallowly embedded: every outbound HTTP interaction is
abstracted to its observable outcome (a parsed response, or the exception the
call raised), Python floats are modelled as rationals (ℚ), Python's raised
exceptions become `Except String`, and each notification-sending wrapper call
is recorded as a `NotifyCall` value in the order the source performs it.
-/

/-- Rendering of a rational as display text.  Python interpolates floats with
various format specifiers; the claims never constrain the rendered digits, so
one fixed deterministic rendering is used. -/
def fmt (q : ℚ) : String :=
  toString q.num ++ (if q.den = 1 then "" else "/" ++ toString q.den)

/-- Parsed JSON values, as produced by `request.json` / `response.json()`. -/
inductive Json where
  | null
  | bool (b : Bool)
  | num (q : ℚ)
  | str (s : String)
  | arr (elems : List Json)
  | obj (kvs : List (String × Json))

/-- First binding of a key in a JSON-object association list. -/
def lookupKey (kvs : List (String × Json)) (k : String) : Option Json :=
  match kvs with
  | [] => none
  | (k1, v) :: rest => if k1 = k then some v else lookupKey rest k

/-- Python subscription `j[k]`: looking a key up in a dict, raising `KeyError`
when missing and `TypeError` when the value is not a dict. -/
def getItem (j : Json) (k : String) : Except String Json :=
  match j with
  | .obj kvs =>
    match lookupKey kvs k with
    | some v => .ok v
    | none => .error ("KeyError: " ++ k)
  | _ => .error ("TypeError: not subscriptable: " ++ k)

/-- Python `j.get(k, dflt)` on a dict, raising `AttributeError` when `j` is
not a dict. -/
def dictGet (j : Json) (k : String) (dflt : Json) : Except String Json :=
  match j with
  | .obj kvs => .ok ((lookupKey kvs k).getD dflt)
  | _ => .error "AttributeError: get"

/-- Python truthiness of a JSON value (`not data` in the handler). -/
def Json.truthy : Json → Bool
  | .null => false
  | .bool b => b
  | .num q => decide (q ≠ 0)
  | .str s => decide (s ≠ "")
  | .arr elems => !elems.isEmpty
  | .obj kvs => !kvs.isEmpty

/-- Python `needle in hay` on lists of characters: some split of `hay` has
`needle` as a contiguous segment. -/
def pyIn (needle : List Char) : List Char → Bool
  | [] => needle.isEmpty
  | c :: rest => needle.isPrefixOf (c :: rest) || pyIn needle rest

/-- Python substring test `needle in hay` on strings. -/
def strIn (needle hay : String) : Bool :=
  pyIn needle.toList hay.toList

/-- Python `k in j` (`'alerts' not in data`): dict-key membership, list
membership, substring test on strings, `TypeError` otherwise. -/
def pyContains (j : Json) (k : String) : Except String Bool :=
  match j with
  | .obj kvs => .ok (kvs.any (fun p => decide (p.1 = k)))
  | .arr elems => .ok (elems.any (fun e => match e with | .str s => decide (s = k) | _ => false))
  | .str s => .ok (strIn k s)
  | _ => .error "TypeError: argument not iterable"

/-- Python iteration `for x in j`: list elements, dict keys, characters of a
string, `TypeError` otherwise. -/
def pyIter : Json → Except String (List Json)
  | .arr elems => .ok elems
  | .obj kvs => .ok (kvs.map (fun p => .str p.1))
  | .str s => .ok (s.toList.map (fun c => .str (String.singleton c)))
  | _ => .error "TypeError: not iterable"

/-- Python `str(j)` as used by f-string interpolation of a JSON value. -/
def pyStr : Json → String
  | .str s => s
  | .num q => fmt q
  | .bool true => "True"
  | .bool false => "False"
  | .null => "None"
  | .arr _ => "[...]"
  | .obj _ => "\x7b...\x7d"

/-- Python `s.lower()` on a string (character-wise lowering). -/
def pyLower (s : String) : String :=
  String.mk (s.toList.map Char.toLower)

/-- Python `j.lower()`: defined on strings, `AttributeError` otherwise. -/
def jLower : Json → Except String String
  | .str s => .ok (pyLower s)
  | _ => .error "AttributeError: lower"

/-- Python `status == 'resolved'` where `status` is an arbitrary JSON value:
true exactly for the string `"resolved"`, never an error. -/
def isResolved (j : Json) : Bool :=
  match j with
  | .str s => decide (s = "resolved")
  | _ => false

/-! ## TeamsAlerter (`alert.py` lines 24-96) -/

/-- One entry of `TeamsAlerter.alert_history`. -/
structure HistEntry where
  title : String
  status : String
deriving DecidableEq

/-- Outcome of the `requests.post` call inside `send_alert`: an HTTP response
with some status code, or a raised transport exception. -/
inductive PostResult where
  | response (statusCode : Nat)
  | raised (msg : String)

/-- The `colors` mapping of `send_alert` (dict lookup with default
`"0076D7"`). -/
def colors (alert_type : String) : String :=
  if alert_type = "info" then "0076D7"
  else if alert_type = "warning" then "FF8C00"
  else if alert_type = "error" then "D83B01"
  else if alert_type = "success" then "107C10"
  else "0076D7"

/-- `TeamsAlerter.send_alert`, given the outcome of the webhook POST.  Returns
the boolean result together with the updated `alert_history`: on HTTP 200 it
appends one `{title, status: "sent"}` entry and returns `true`; on any other
status code or a raised transport error it returns `false` with the history
unchanged.  All failure paths return normally (the `try/except` swallows the
exception), which the model reflects by being a total function. -/
def send_alert (history : List HistEntry) (title message alert_type : String)
    (facts : List (String × String)) (post : PostResult) : Bool × List HistEntry :=
  match post with
  | .response code =>
    if code = 200 then (true, history ++ [⟨title, "sent"⟩]) else (false, history)
  | .raised _ => (false, history)

/-- One invocation of a `TeamsAlerter` convenience wrapper, with the arguments
the source passes (`database_alert`, `system_alert`, `api_alert`,
`success_alert`). -/
inductive NotifyCall where
  | database_alert (metric value threshold message : String)
  | system_alert (metric value threshold message : String)
  | api_alert (metric value message : String)
  | success_alert (service message : String)
deriving DecidableEq

/-- The `alert_type` each wrapper passes to `send_alert`. -/
def NotifyCall.alert_type : NotifyCall → String
  | .database_alert _ _ _ _ => "error"
  | .system_alert _ _ _ _ => "warning"
  | .api_alert _ _ _ => "info"
  | .success_alert _ _ => "success"

/-- The title each wrapper passes to `send_alert`. -/
def NotifyCall.title : NotifyCall → String
  | .database_alert _ _ _ _ => "🚨 Database Alert"
  | .system_alert _ _ _ _ => "⚠️ System Alert"
  | .api_alert _ _ _ => "🌐 API Alert"
  | .success_alert _ _ => "✅ Service Recovered"

/-- The metric name passed to the wrapper (first fact of the three
metric-carrying wrappers); `success_alert` carries a service, not a metric. -/
def callMetric : NotifyCall → Option String
  | .database_alert metric _ _ _ => some metric
  | .system_alert metric _ _ _ => some metric
  | .api_alert metric _ _ => some metric
  | .success_alert _ _ => none

/-! ## MetricMonitor (`alert.py` lines 97-172) -/

/-- Outcome of the `requests.get` against Prometheus inside
`query_prometheus`: a raised network error, a non-2xx response (which
`raise_for_status` turns into an exception), a malformed response (JSON
decoding, missing keys, or an unparsable value string, all of which raise),
or a well-formed response whose `data.result` carries the listed values. -/
inductive PromOutcome where
  | netError (msg : String)
  | httpError (statusCode : Nat)
  | malformed (msg : String)
  | results (vals : List ℚ)

/-- `MetricMonitor.query_prometheus`: the first result's value on a
well-formed non-empty response, `None` (here `none`) on an empty result set
and on every exception path. -/
def query_prometheus : PromOutcome → Option ℚ
  | .netError _ => none
  | .httpError _ => none
  | .malformed _ => none
  | .results [] => none
  | .results (v :: _) => some v

/-- The eight fixed rules of `MetricMonitor.check_alerts`, in source order. -/
inductive Rule where
  | connections
  | dbSize
  | cpuUsage
  | memoryUsage
  | temperature
  | btcPrice
  | pgUp
  | nodeUp
deriving DecidableEq

/-- The PromQL expression `check_alerts` queries for each rule. -/
def ruleQuery : Rule → String
  | .connections => "pg_stat_activity_count\x7bdatname=\"postgres\"\x7d"
  | .dbSize => "pg_database_size\x7bdatname=\"postgres\"\x7d / 1024 / 1024 / 1024"
  | .cpuUsage => "100 - (avg by (instance) (rate(node_cpu_seconds_total\x7bmode=\"idle\"\x7d[5m])) * 100)"
  | .memoryUsage => "(1 - (node_memory_MemAvailable_bytes / node_memory_MemTotal_bytes)) * 100"
  | .temperature => "weather_temperature_celsius\x7bcity=\"Astana\"\x7d"
  | .btcPrice => "crypto_bitcoin_price_usd"
  | .pgUp => "pg_up"
  | .nodeUp => "up\x7bjob=\"node\"\x7d"

/-- The metric-name argument each rule passes to its wrapper. -/
def ruleMetric : Rule → String
  | .connections => "Active Connections"
  | .dbSize => "Database Size"
  | .cpuUsage => "CPU Usage"
  | .memoryUsage => "Memory Usage"
  | .temperature => "Weather Temperature"
  | .btcPrice => "Bitcoin Price"
  | .pgUp => "PostgreSQL Status"
  | .nodeUp => "Node Exporter"

/-- The notification category of each rule's domain: database rules use
`database_alert` ("error"), system rules use `system_alert` ("warning"),
external-API rules use `api_alert` ("info"). -/
def domainCategory : Rule → String
  | .connections => "error"
  | .dbSize => "error"
  | .cpuUsage => "warning"
  | .memoryUsage => "warning"
  | .temperature => "info"
  | .btcPrice => "info"
  | .pgUp => "error"
  | .nodeUp => "warning"

/-- The firing condition of each rule, exactly as the Python `if` tests it:
the six threshold rules test `value and value CMP threshold` (truthiness of
the float, i.e. nonzero, then the comparison), the two liveness rules test
`value == 0`. -/
def fires : Rule → ℚ → Bool
  | .connections, v => decide (v ≠ 0) && decide (50 < v)
  | .dbSize, v => decide (v ≠ 0) && decide (1 < v)
  | .cpuUsage, v => decide (v ≠ 0) && decide (80 < v)
  | .memoryUsage, v => decide (v ≠ 0) && decide (85 < v)
  | .temperature, v => decide (v ≠ 0) && decide (30 < v)
  | .btcPrice, v => decide (v ≠ 0) && decide (v < 40000)
  | .pgUp, v => decide (v = 0)
  | .nodeUp, v => decide (v = 0)

/-- The wrapper call each rule performs when it fires, with the arguments the
source passes (numeric values rendered through `fmt`). -/
def mkAlert : Rule → ℚ → NotifyCall
  | .connections, v =>
    .database_alert "Active Connections" (fmt v) "50"
      ("High database connections: " ++ fmt v)
  | .dbSize, v =>
    .database_alert "Database Size" (fmt v ++ " GB") "1 GB"
      ("Database size is large: " ++ fmt v ++ " GB")
  | .cpuUsage, v =>
    .system_alert "CPU Usage" (fmt v ++ "%") "80%"
      ("High CPU usage: " ++ fmt v ++ "%")
  | .memoryUsage, v =>
    .system_alert "Memory Usage" (fmt v ++ "%") "85%"
      ("High memory usage: " ++ fmt v ++ "%")
  | .temperature, v =>
    .api_alert "Weather Temperature" (fmt v ++ "°C")
      ("High temperature in Astana: " ++ fmt v ++ "°C")
  | .btcPrice, v =>
    .api_alert "Bitcoin Price" ("$" ++ fmt v)
      ("Bitcoin price dropped: $" ++ fmt v)
  | .pgUp, _ =>
    .database_alert "PostgreSQL Status" "DOWN" "UP" "PostgreSQL database is down!"
  | .nodeUp, _ =>
    .system_alert "Node Exporter" "DOWN" "UP" "Node Exporter is not running!"

/-- One rule's contribution in `check_alerts`: query Prometheus, and invoke
the rule's wrapper when the value is present and the firing condition holds.
The environment `env` gives the outcome of the Prometheus request for each
query string. -/
def ruleEval (env : String → PromOutcome) (r : Rule) : List NotifyCall :=
  match query_prometheus (env (ruleQuery r)) with
  | some v => if fires r v then [mkAlert r v] else []
  | none => []

/-- `MetricMonitor.check_alerts`: the eight rules evaluated in source order,
producing the sequence of wrapper invocations of one tick. -/
def check_alerts (env : String → PromOutcome) : List NotifyCall :=
  ruleEval env .connections ++ ruleEval env .dbSize ++ ruleEval env .cpuUsage ++
  ruleEval env .memoryUsage ++ ruleEval env .temperature ++ ruleEval env .btcPrice ++
  ruleEval env .pgUp ++ ruleEval env .nodeUp

/-- "Strictly past the threshold in the failing direction" for each rule, as
the spec words it: `> 50`, `> 1` GB, `> 80` %, `> 85` %, `> 30` °C,
`< 40000` $, and `== 0` for the two liveness probes. -/
def pastThreshold : Rule → ℚ → Prop
  | .connections, v => 50 < v
  | .dbSize, v => 1 < v
  | .cpuUsage, v => 80 < v
  | .memoryUsage, v => 85 < v
  | .temperature, v => 30 < v
  | .btcPrice, v => v < 40000
  | .pgUp, v => v = 0
  | .nodeUp, v => v = 0

/-- Whether a wrapper call belongs to a given rule (each rule passes a
distinct metric-name literal to its wrapper). -/
def isRuleCall (r : Rule) (c : NotifyCall) : Bool :=
  decide (callMetric c = some (ruleMetric r))

/-- How many of the tick's wrapper invocations belong to rule `r`. -/
def ruleCount (r : Rule) (l : List NotifyCall) : Nat :=
  l.countP (isRuleCall r)

/-- A Prometheus environment answering every query with the same single
result value; used to instantiate universally quantified theorems. -/
def envConst (v : ℚ) : String → PromOutcome := fun _ => .results [v]

/-- A Prometheus environment answering every query with an empty result
set. -/
def envEmpty : String → PromOutcome := fun _ => .results []

/-! ## MonitorLoop (`alert.py` lines 163-172) -/

/-- The monitoring interval constant. -/
def MONITORING_INTERVAL : Nat := 30

/-- What one iteration of the `while True` loop in `start_monitoring` does
after its body runs: continue after sleeping some number of seconds, or
return from the loop. -/
inductive LoopStep where
  | continueAfter (sleepSeconds : Nat)
  | returned

/-- One iteration of `MetricMonitor.start_monitoring`, given the outcome of
the `check_alerts()` call (normal completion, or a raised exception).  On
success the iteration sleeps `MONITORING_INTERVAL` seconds; on an exception
the `except` clause logs and sleeps 10 seconds.  Neither branch leaves the
loop, and the exception is not re-raised. -/
def start_monitoring_iteration (tick : Except String Unit) : LoopStep :=
  match tick with
  | .ok _ => .continueAfter MONITORING_INTERVAL
  | .error _ => .continueAfter 10

/-- Running the monitoring loop for `n` iterations against a stream of
per-iteration `check_alerts` outcomes: `some sleeps` lists the sleep taken
after each completed iteration, `none` means some iteration returned and the
loop terminated. -/
def start_monitoring_run (ticks : Nat → Except String Unit) : Nat → Option (List Nat)
  | 0 => some []
  | n + 1 =>
    match start_monitoring_run ticks n with
    | none => none
    | some sleeps =>
      match start_monitoring_iteration (ticks n) with
      | .continueAfter d => some (sleeps ++ [d])
      | .returned => none

/-! ## Alert ingress server (`alert.py` lines 175-210) -/

/-- `process_prometheus_alert`: normalizes one inbound alert element into a
wrapper call, or raises (missing `labels`/`status`/`annotations` keys raise
`KeyError`, a non-string alert name raises on `.lower()`). -/
def process_prometheus_alert (alert : Json) : Except String NotifyCall :=
  match getItem alert "labels" with
  | .error e => .error e
  | .ok labels =>
    match dictGet labels "alertname" (.str "Unknown") with
    | .error e => .error e
    | .ok alertname =>
      match getItem alert "status" with
      | .error e => .error e
      | .ok status =>
        match getItem alert "annotations" with
        | .error e => .error e
        | .ok annots =>
          match dictGet annots "description" (.str "") with
          | .error e => .error e
          | .ok description =>
            if isResolved status then
              .ok (.success_alert (pyStr alertname)
                ("Alert resolved: " ++ pyStr description))
            else
              match jLower alertname with
              | .error e => .error e
              | .ok low =>
                if strIn "database" low then
                  .ok (.database_alert (pyStr alertname) "Problem detected" "Normal"
                    (pyStr description))
                else if strIn "cpu" low || strIn "memory" low then
                  .ok (.system_alert (pyStr alertname) "Problem detected" "Normal"
                    (pyStr description))
                else
                  .ok (.api_alert (pyStr alertname) "Problem detected"
                    (pyStr description))

/-- The `for alert in data['alerts']` loop of `handle_alert`: elements are
processed one at a time in list order, accumulating the wrapper calls made so
far; the first element that raises stops the loop with its exception text. -/
def processAlertsLoop : List Json → List NotifyCall → List NotifyCall × Option String
  | [], acc => (acc, none)
  | a :: rest, acc =>
    match process_prometheus_alert a with
    | .ok c => processAlertsLoop rest (acc ++ [c])
    | .error e => (acc, some e)

/-- The observable result of one `POST /alert` request: HTTP status code,
the `error` field of the JSON response (if any), and the wrapper calls made
while processing the batch. -/
structure HAResult where
  status : Nat
  errorText : Option String
  calls : List NotifyCall
deriving DecidableEq

/-- The `/alert` route handler `handle_alert`.  Its input is the outcome of
`request.json`: `.error e` when Flask's body parsing raises (unparsable JSON)
— that exception is raised inside the handler's `try` and caught by the
catch-all, producing a 500 — and `.ok data` when the body parses.  A falsy
body or one without an `'alerts'` key is rejected with 400; otherwise the
batch is processed and the handler answers 200, or 500 with the exception
text if an element raises. -/
def handle_alert (req : Except String Json) : HAResult :=
  match req with
  | .error e => ⟨500, some e, []⟩
  | .ok data =>
    if !data.truthy then ⟨400, some "Invalid alert data", []⟩
    else
      match pyContains data "alerts" with
      | .error e => ⟨500, some e, []⟩
      | .ok false => ⟨400, some "Invalid alert data", []⟩
      | .ok true =>
        match getItem data "alerts" with
        | .error e => ⟨500, some e, []⟩
        | .ok alertsJ =>
          match pyIter alertsJ with
          | .error e => ⟨500, some e, []⟩
          | .ok elems =>
            match processAlertsLoop elems [] with
            | (calls, none) => ⟨200, none, calls⟩
            | (calls, some e) => ⟨500, some e, calls⟩

/-- A standard inbound alert element, as in the spec's examples. -/
def mkIngress (name status desc : String) : Json :=
  .obj [("labels", .obj [("alertname", .str name)]),
        ("status", .str status),
        ("annotations", .obj [("description", .str desc)])]

/-! ## MetricsExporter (`custom_exporter.py`) -/

/-- The exporter's registry: every gauge of `custom_exporter.py` (modelled as
`Option ℚ`, `none` before the first `set`), the per-label cells of the
`api_errors_total` counter, and the per-label sample counts of the
`api_response_time` histogram. -/
structure ExporterState where
  weather_temperature : Option ℚ
  weather_windspeed : Option ℚ
  weather_humidity : Option ℚ
  weather_visibility : Option ℚ
  crypto_bitcoin_price : Option ℚ
  crypto_ethereum_price : Option ℚ
  crypto_market_cap : Option ℚ
  exchange_rate_usd : Option ℚ
  exchange_rate_eur : Option ℚ
  weather_api_status : Option ℚ
  crypto_api_status : Option ℚ
  exporter_uptime : Option ℚ
  api_errors_weather : Nat
  api_errors_crypto : Nat
  api_errors_exchange : Nat
  api_obs_weather : Nat
  api_obs_crypto : Nat
  api_obs_exchange : Nat
  astana_population : Option ℚ
  current_timestamp : Option ℚ
  random_metric : Option ℚ
deriving DecidableEq

/-- The `except` clause of `fetch_weather_data`: status gauge to 0, error
counter labelled `weather` incremented. -/
def weatherFail (s : ExporterState) : ExporterState :=
  { s with weather_api_status := some 0, api_errors_weather := s.api_errors_weather + 1 }

/-- The `except` clause of `fetch_crypto_data`. -/
def cryptoFail (s : ExporterState) : ExporterState :=
  { s with crypto_api_status := some 0, api_errors_crypto := s.api_errors_crypto + 1 }

/-- The `except` clause of `fetch_exchange_rates` (no status gauge exists for
this source). -/
def exchangeFail (s : ExporterState) : ExporterState :=
  { s with api_errors_exchange := s.api_errors_exchange + 1 }

/-- `Gauge.set(x)` applied to a JSON value: defined for numbers, raises for
anything else. -/
def asNum : Json → Except String ℚ
  | .num q => .ok q
  | _ => .error "TypeError: not a number"

/-- Python `xs[0]` on a JSON value: first element of a list, `IndexError` on
an empty list, `TypeError` otherwise. -/
def jIndex0 : Json → Except String Json
  | .arr (x :: _) => .ok x
  | .arr [] => .error "IndexError: list index out of range"
  | _ => .error "TypeError: not subscriptable by int"

/-- `fetch_weather_data`, given the outcome of the forecast GET (`.error` for
a timeout, a non-2xx status via `raise_for_status`, or an unparsable body).
Gauges are set one at a time in source order, so a shape error partway
through (missing key, empty hourly list, non-numeric value) leaves the
earlier gauges set and then takes the `except` path: status gauge 0 and the
`weather` error counter incremented.  On full success the four gauges are
set (visibility divided by 1000 to convert metres to kilometres), the status
gauge becomes 1 and a latency sample is recorded. -/
def fetch_weather_data (resp : Except String Json) (s0 : ExporterState) :
    Bool × ExporterState :=
  match (do
      let data ← resp
      let current ← getItem data "current_weather"
      let hourly ← getItem data "hourly"
      pure (current, hourly) : Except String (Json × Json)) with
  | .error _ => (false, weatherFail s0)
  | .ok (current, hourly) =>
    match (getItem current "temperature").bind asNum with
    | .error _ => (false, weatherFail s0)
    | .ok t =>
      let s1 := { s0 with weather_temperature := some t }
      match (getItem current "windspeed").bind asNum with
      | .error _ => (false, weatherFail s1)
      | .ok w =>
        let s2 := { s1 with weather_windspeed := some w }
        match (do asNum (← jIndex0 (← getItem hourly "relativehumidity_2m")) :
            Except String ℚ) with
        | .error _ => (false, weatherFail s2)
        | .ok h =>
          let s3 := { s2 with weather_humidity := some h }
          match (do asNum (← jIndex0 (← getItem hourly "visibility")) :
              Except String ℚ) with
          | .error _ => (false, weatherFail s3)
          | .ok vis =>
            (true, { s3 with weather_visibility := some (vis / 1000),
                             weather_api_status := some 1,
                             api_obs_weather := s3.api_obs_weather + 1 })

/-- `fetch_crypto_data`, given the outcome of the CoinGecko GET.  Bitcoin and
Ethereum price gauges are set in order, then the market-cap gauge is set to
the sum of the two parsed market caps; any raise takes the `except` path
(status gauge 0, `crypto` error counter incremented). -/
def fetch_crypto_data (resp : Except String Json) (s0 : ExporterState) :
    Bool × ExporterState :=
  match resp with
  | .error _ => (false, cryptoFail s0)
  | .ok data =>
    match (do asNum (← getItem (← getItem data "bitcoin") "usd") : Except String ℚ) with
    | .error _ => (false, cryptoFail s0)
    | .ok btc =>
      let s1 := { s0 with crypto_bitcoin_price := some btc }
      match (do asNum (← getItem (← getItem data "ethereum") "usd") : Except String ℚ) with
      | .error _ => (false, cryptoFail s1)
      | .ok eth =>
        let s2 := { s1 with crypto_ethereum_price := some eth }
        match (do
            let bc ← asNum (← getItem (← getItem data "bitcoin") "usd_market_cap")
            let ec ← asNum (← getItem (← getItem data "ethereum") "usd_market_cap")
            pure (bc + ec) : Except String ℚ) with
        | .error _ => (false, cryptoFail s2)
        | .ok cap =>
          (true, { s2 with crypto_market_cap := some cap,
                           crypto_api_status := some 1,
                           api_obs_crypto := s2.api_obs_crypto + 1 })

/-- Extracting `data['rates']['KZT']` from an exchange-rate response. -/
def exParse (resp : Except String Json) : Except String ℚ := do
  let data ← resp
  asNum (← getItem (← getItem data "rates") "KZT")

/-- `fetch_exchange_rates`, given the outcomes of the two sequential GETs
(USD→KZT then EUR→KZT).  The USD gauge is set before the EUR request is
made, so a failure of the second request leaves the USD gauge updated; any
raise increments the `exchange` error counter (this source has no status
gauge).  The parsed rates are stored without any conversion. -/
def fetch_exchange_rates (respUsd respEur : Except String Json)
    (s0 : ExporterState) : Bool × ExporterState :=
  match exParse respUsd with
  | .error _ => (false, exchangeFail s0)
  | .ok usd_rate =>
    let s1 := { s0 with exchange_rate_usd := some usd_rate }
    match exParse respEur with
    | .error _ => (false, exchangeFail s1)
    | .ok eur_rate =>
      (true, { s1 with exchange_rate_eur := some eur_rate,
                       api_obs_exchange := s1.api_obs_exchange + 1 })

/-- Python `x % m` on floats for positive `m`, as used by
`time.time() % 100`. -/
def pymod (x m : ℚ) : ℚ := x - m * ⌊x / m⌋

/-- `fetch_static_data`: constant population gauge, wall-clock epoch gauge,
and the epoch modulo 100. -/
def fetch_static_data (now : ℚ) (s : ExporterState) : Bool × ExporterState :=
  (true, { s with astana_population := some 1300000,
                  current_timestamp := some now,
                  random_metric := some (pymod now 100) })

/-- The inputs of one iteration of the exporter's `main_loop`: the uptime
value written before the fetches, the outcomes of the three HTTP fetches
(the exchange source makes two requests), and the wall-clock reading of the
static update. -/
structure TickInput where
  uptimeNow : ℚ
  weather : Except String Json
  crypto : Except String Json
  rateUsd : Except String Json
  rateEur : Except String Json
  staticNow : ℚ

/-- One iteration of `main_loop`: update the uptime gauge, then run the four
fetches sequentially.  Each fetch catches its own exceptions, so a failure
of one cannot prevent the later ones from running. -/
def main_loop_tick (inp : TickInput) (s : ExporterState) : ExporterState :=
  let s := { s with exporter_uptime := some inp.uptimeNow }
  let s := (fetch_weather_data inp.weather s).2
  let s := (fetch_crypto_data inp.crypto s).2
  let s := (fetch_exchange_rates inp.rateUsd inp.rateEur s).2
  (fetch_static_data inp.staticNow s).2

/-- A well-formed CoinGecko response body. -/
def cryptoJson (btc btcCap eth ethCap : ℚ) : Json :=
  .obj [("bitcoin", .obj [("usd", .num btc), ("usd_market_cap", .num btcCap)]),
        ("ethereum", .obj [("usd", .num eth), ("usd_market_cap", .num ethCap)])]

/-- A well-formed exchange-rate response body. -/
def ratesJson (r : ℚ) : Json :=
  .obj [("rates", .obj [("KZT", .num r)])]

/-- A well-formed open-meteo response body with the given current values and
hourly lists. -/
def weatherJson (t w : ℚ) (hums viss : List Json) : Json :=
  .obj [("current_weather", .obj [("temperature", .num t), ("windspeed", .num w)]),
        ("hourly", .obj [("relativehumidity_2m", .arr hums), ("visibility", .arr viss)])]

/-! ## Helper lemmas -/

theorem isRuleCall_mkAlert (r r2 : Rule) (v : ℚ) :
    isRuleCall r (mkAlert r2 v) = decide (r = r2) := by
  cases r <;> cases r2 <;> rfl

theorem ruleCount_append (r : Rule) (l1 l2 : List NotifyCall) :
    ruleCount r (l1 ++ l2) = ruleCount r l1 + ruleCount r l2 := by
  simp [ruleCount, List.countP_append]

theorem ruleEval_none {env : String → PromOutcome} {r : Rule}
    (h : query_prometheus (env (ruleQuery r)) = none) : ruleEval env r = [] := by
  unfold ruleEval
  rw [h]

theorem ruleEval_some {env : String → PromOutcome} {r : Rule} {v : ℚ}
    (h : query_prometheus (env (ruleQuery r)) = some v) :
    ruleEval env r = if fires r v then [mkAlert r v] else [] := by
  unfold ruleEval
  rw [h]

theorem ruleCount_ruleEval_ne (r r2 : Rule) (env : String → PromOutcome)
    (h : r ≠ r2) : ruleCount r (ruleEval env r2) = 0 := by
  rcases hq : query_prometheus (env (ruleQuery r2)) with _ | v
  · rw [ruleEval_none hq]
    rfl
  · rw [ruleEval_some hq]
    by_cases hf : fires r2 v
    · rw [if_pos hf]
      simp [ruleCount, List.countP_cons, isRuleCall_mkAlert, h]
    · rw [if_neg hf]
      rfl

theorem ruleCount_check_alerts (r : Rule) (env : String → PromOutcome) :
    ruleCount r (check_alerts env) = ruleCount r (ruleEval env r) := by
  have hne : ∀ r2 : Rule, r ≠ r2 → ruleCount r (ruleEval env r2) = 0 :=
    fun r2 h => ruleCount_ruleEval_ne r r2 env h
  cases r
  case connections =>
    simp only [check_alerts, ruleCount_append, hne .dbSize (by decide),
      hne .cpuUsage (by decide), hne .memoryUsage (by decide),
      hne .temperature (by decide), hne .btcPrice (by decide),
      hne .pgUp (by decide), hne .nodeUp (by decide)]
    omega
  case dbSize =>
    simp only [check_alerts, ruleCount_append, hne .connections (by decide),
      hne .cpuUsage (by decide), hne .memoryUsage (by decide),
      hne .temperature (by decide), hne .btcPrice (by decide),
      hne .pgUp (by decide), hne .nodeUp (by decide)]
    omega
  case cpuUsage =>
    simp only [check_alerts, ruleCount_append, hne .connections (by decide),
      hne .dbSize (by decide), hne .memoryUsage (by decide),
      hne .temperature (by decide), hne .btcPrice (by decide),
      hne .pgUp (by decide), hne .nodeUp (by decide)]
    omega
  case memoryUsage =>
    simp only [check_alerts, ruleCount_append, hne .connections (by decide),
      hne .dbSize (by decide), hne .cpuUsage (by decide),
      hne .temperature (by decide), hne .btcPrice (by decide),
      hne .pgUp (by decide), hne .nodeUp (by decide)]
    omega
  case temperature =>
    simp only [check_alerts, ruleCount_append, hne .connections (by decide),
      hne .dbSize (by decide), hne .cpuUsage (by decide),
      hne .memoryUsage (by decide), hne .btcPrice (by decide),
      hne .pgUp (by decide), hne .nodeUp (by decide)]
    omega
  case btcPrice =>
    simp only [check_alerts, ruleCount_append, hne .connections (by decide),
      hne .dbSize (by decide), hne .cpuUsage (by decide),
      hne .memoryUsage (by decide), hne .temperature (by decide),
      hne .pgUp (by decide), hne .nodeUp (by decide)]
    omega
  case pgUp =>
    simp only [check_alerts, ruleCount_append, hne .connections (by decide),
      hne .dbSize (by decide), hne .cpuUsage (by decide),
      hne .memoryUsage (by decide), hne .temperature (by decide),
      hne .btcPrice (by decide), hne .nodeUp (by decide)]
    omega
  case nodeUp =>
    simp only [check_alerts, ruleCount_append, hne .connections (by decide),
      hne .dbSize (by decide), hne .cpuUsage (by decide),
      hne .memoryUsage (by decide), hne .temperature (by decide),
      hne .btcPrice (by decide), hne .pgUp (by decide)]
    omega

theorem mem_ruleEval {c : NotifyCall} {env : String → PromOutcome} {r2 : Rule}
    (h : c ∈ ruleEval env r2) : ∃ v, c = mkAlert r2 v := by
  unfold ruleEval at h
  split at h
  next v heq =>
    split at h
    · simp only [List.mem_singleton] at h
      exact ⟨v, h⟩
    · simp at h
  next => simp at h

theorem mem_check_alerts {c : NotifyCall} {env : String → PromOutcome}
    (h : c ∈ check_alerts env) : ∃ r v, c = mkAlert r v := by
  unfold check_alerts at h
  simp only [List.mem_append] at h
  rcases h with ((((((h | h) | h) | h) | h) | h) | h) | h <;>
    obtain ⟨v, rfl⟩ := mem_ruleEval h <;> exact ⟨_, v, rfl⟩

/-! ## Claims -/

/-- Claim C1 (amended): for every rule, whenever `query_prometheus` returns a
present value strictly past the rule's threshold in the failing direction
and the value passes the Python truthiness guard (it is nonzero — the two
liveness rules have no such guard and fire on 0 directly), one tick of
`check_alerts` invokes the Notifier wrapper exactly once for that rule, and
every wrapper call of that rule carries the category matching the rule's
domain (database → error, system → warning, external-API → info). -/
theorem c1_threshold_notifies_once (r : Rule) (env : String → PromOutcome) (v : ℚ)
    (hq : query_prometheus (env (ruleQuery r)) = some v)
    (hp : pastThreshold r v)
    (hz : v ≠ 0 ∨ r = .pgUp ∨ r = .nodeUp) :
    ruleCount r (check_alerts env) = 1 ∧
    ∀ c ∈ check_alerts env, isRuleCall r c = true →
      c.alert_type = domainCategory r := by
  have hfires : fires r v = true := by
    rcases hz with hz | rfl | rfl
    · cases r <;>
        simp only [pastThreshold] at hp <;>
          simp only [fires, Bool.and_eq_true, decide_eq_true_eq] <;>
            first
              | exact ⟨hz, hp⟩
              | exact hp
    · simp only [pastThreshold] at hp
      simp only [fires, decide_eq_true_eq]
      exact hp
    · simp only [pastThreshold] at hp
      simp only [fires, decide_eq_true_eq]
      exact hp
  constructor
  · rw [ruleCount_check_alerts, ruleEval_some hq, if_pos hfires]
    simp [ruleCount, List.countP_cons, isRuleCall_mkAlert]
  · intro c hc hr
    obtain ⟨r2, v2, rfl⟩ := mem_check_alerts hc
    rw [isRuleCall_mkAlert] at hr
    have h2 : r = r2 := of_decide_eq_true hr
    subst h2
    cases r <;> rfl

/-- Witness for C1 at a concrete input: with every query answering 60,
the connection-count rule (threshold 50) fires exactly once with the
database category. -/
theorem c1_threshold_notifies_once_witness :
    query_prometheus (envConst 60 (ruleQuery .connections)) = some 60 ∧
    pastThreshold .connections 60 ∧
    ((60 : ℚ) ≠ 0 ∨ Rule.connections = .pgUp ∨ Rule.connections = .nodeUp) ∧
    (ruleCount .connections (check_alerts (envConst 60)) = 1 ∧
      ∀ c ∈ check_alerts (envConst 60), isRuleCall .connections c = true →
        c.alert_type = domainCategory .connections) :=
  ⟨rfl, by norm_num [pastThreshold], Or.inl (by norm_num),
    c1_threshold_notifies_once .connections (envConst 60) 60 rfl
      (by norm_num [pastThreshold]) (Or.inl (by norm_num))⟩

/-- Counterexample to C1 as stated: a bitcoin price of 0 is strictly below
the 40000 threshold (present, past threshold in the failing direction), yet
the tick performs no wrapper call for the bitcoin rule, because the Python
guard `if btc_price and btc_price < 40000` treats the falsy float 0.0 as
absent. -/
theorem c1_zero_btc_counterexample :
    query_prometheus (envConst 0 (ruleQuery .btcPrice)) = some 0 ∧
    pastThreshold .btcPrice 0 ∧
    ruleCount .btcPrice (check_alerts (envConst 0)) = 0 :=
  ⟨rfl, by norm_num [pastThreshold], by decide⟩

/-- Claim C3: `query_prometheus` collapses network errors, non-2xx statuses,
malformed responses and empty result sets to the same "no data" outcome
(`none`), and whenever it returns `none` for a rule's query, one tick of
`check_alerts` performs no wrapper call for that rule. -/
theorem c3_absent_skipped :
    (∀ msg, query_prometheus (.netError msg) = none) ∧
    (∀ code, query_prometheus (.httpError code) = none) ∧
    (∀ msg, query_prometheus (.malformed msg) = none) ∧
    query_prometheus (.results []) = none ∧
    ∀ (r : Rule) (env : String → PromOutcome),
      query_prometheus (env (ruleQuery r)) = none →
      ruleCount r (check_alerts env) = 0 := by
  refine ⟨fun _ => rfl, fun _ => rfl, fun _ => rfl, rfl, ?_⟩
  intro r env hq
  rw [ruleCount_check_alerts, ruleEval_none hq]
  rfl

/-- Witness for C3 at a concrete input: with every query answering an empty
result set, the temperature rule performs no wrapper call. -/
theorem c3_absent_skipped_witness :
    ruleCount .temperature (check_alerts envEmpty) = 0 :=
  c3_absent_skipped.2.2.2.2 .temperature envEmpty rfl

/-- Claim C9: a present metric value of exactly 0 is treated like an absent
value by the six truthiness-guarded threshold rules — no wrapper call is
performed for them even when 0 satisfies the comparator (as for the bitcoin
rule) — while exactly the two liveness rules (`pg_up`, `up{job="node"}`)
fire on the value 0. -/
theorem c9_zero_truthiness (r : Rule) (env : String → PromOutcome)
    (hq : query_prometheus (env (ruleQuery r)) = some 0) :
    ruleCount r (check_alerts env) =
      if r = .pgUp ∨ r = .nodeUp then 1 else 0 := by
  rw [ruleCount_check_alerts, ruleEval_some hq]
  cases r <;> decide

/-- Witness for C9 at a concrete input: with every query answering 0, the
bitcoin rule (a truthiness-guarded rule) performs no wrapper call. -/
theorem c9_zero_truthiness_witness :
    ruleCount .btcPrice (check_alerts (envConst 0)) =
      if Rule.btcPrice = .pgUp ∨ Rule.btcPrice = .nodeUp then 1 else 0 :=
  c9_zero_truthiness .btcPrice (envConst 0) rfl

/-- Claim C4: `send_alert` returns `false` and does not raise (it is a total
function) on any non-200 response and on any transport failure, leaving the
send history unchanged; on a 200 response it returns `true` and the history
grows by exactly one entry. -/
theorem c4_send_alert_outcome (history : List HistEntry)
    (title message ty : String) (facts : List (String × String)) :
    (∀ code, code ≠ 200 →
      send_alert history title message ty facts (.response code) = (false, history)) ∧
    (∀ msg, send_alert history title message ty facts (.raised msg) = (false, history)) ∧
    send_alert history title message ty facts (.response 200) =
      (true, history ++ [⟨title, "sent"⟩]) ∧
    (send_alert history title message ty facts (.response 200)).2.length =
      history.length + 1 := by
  refine ⟨?_, fun _ => rfl, rfl, by simp [send_alert]⟩
  intro code hcode
  simp [send_alert, hcode]

/-- Witness for C4 at a concrete input: a 404 response returns `false` and
leaves the (empty) history unchanged. -/
theorem c4_send_alert_outcome_witness :
    (404 : Nat) ≠ 200 ∧
    send_alert [] "t" "m" "error" [] (.response 404) = (false, []) :=
  ⟨by decide, (c4_send_alert_outcome [] "t" "m" "error" []).1 404 (by decide)⟩

/-- Claim C2 (amended): `POST /alert` returns 400 whenever the body parses as
JSON but is falsy (in particular `{}`) or lacks the top-level `alerts` key;
a body that fails to parse instead yields 500, because `request.json` raises
inside the handler's `try` and the catch-all turns the exception into a 500
response. -/
theorem c2_missing_alerts_400 (data : Json)
    (h : data.truthy = false ∨ pyContains data "alerts" = .ok false) :
    (handle_alert (.ok data)).status = 400 ∧
    (handle_alert (.ok (.obj []))).status = 400 ∧
    ∀ e, (handle_alert (.error e)).status = 500 := by
  refine ⟨?_, rfl, fun _ => rfl⟩
  rcases h with h | h
  · simp [handle_alert, h]
  · by_cases ht : data.truthy
    · simp [handle_alert, ht, h]
    · simp [handle_alert, ht]

/-- Witness for C2 at a concrete input: posting `{}` returns 400. -/
theorem c2_missing_alerts_400_witness :
    Json.truthy (.obj []) = false ∧
    (handle_alert (.ok (.obj []))).status = 400 :=
  ⟨rfl, (c2_missing_alerts_400 (.obj []) (Or.inl rfl)).1⟩

/-- Counterexample to C2 as stated: a body that fails to parse as JSON does
not produce 400 — the parse exception is caught by the handler's catch-all
and the endpoint answers 500. -/
theorem c2_unparsable_counterexample :
    (handle_alert (.error "Expecting value: line 1 column 1 (char 0)")).status = 500 ∧
    (handle_alert (.error "Expecting value: line 1 column 1 (char 0)")).status ≠ 400 :=
  ⟨rfl, by decide⟩

/-- Claim C5: routing of one inbound alert element — `status == "resolved"`
goes to the recovery wrapper (and to no other wrapper, the result being
exactly that one call); otherwise a lowercased name containing "database"
goes to the database wrapper, one containing "cpu" or "memory" to the system
wrapper, and anything else to the generic API wrapper, forwarding the
description; and posting the firing `HighCPUUsage` example routes to the
system wrapper and returns 200. -/
theorem c5_routing (name status desc : String) :
    (status = "resolved" →
      process_prometheus_alert (mkIngress name status desc) =
        .ok (.success_alert name ("Alert resolved: " ++ desc))) ∧
    (status ≠ "resolved" → strIn "database" (pyLower name) = true →
      process_prometheus_alert (mkIngress name status desc) =
        .ok (.database_alert name "Problem detected" "Normal" desc)) ∧
    (status ≠ "resolved" → strIn "database" (pyLower name) = false →
      (strIn "cpu" (pyLower name) || strIn "memory" (pyLower name)) = true →
      process_prometheus_alert (mkIngress name status desc) =
        .ok (.system_alert name "Problem detected" "Normal" desc)) ∧
    (status ≠ "resolved" → strIn "database" (pyLower name) = false →
      (strIn "cpu" (pyLower name) || strIn "memory" (pyLower name)) = false →
      process_prometheus_alert (mkIngress name status desc) =
        .ok (.api_alert name "Problem detected" desc)) ∧
    handle_alert (.ok (.obj [("alerts",
        .arr [mkIngress "HighCPUUsage" "firing" "cpu hot"])])) =
      ⟨200, none, [.system_alert "HighCPUUsage" "Problem detected" "Normal" "cpu hot"]⟩ := by
  refine ⟨?_, ?_, ?_, ?_, by decide⟩
  · intro h
    subst h
    rfl
  · intro h1 h2
    simp [process_prometheus_alert, mkIngress, getItem, lookupKey, dictGet,
      isResolved, jLower, pyStr, h1, h2]
  · intro h1 h2 h3
    simp [process_prometheus_alert, mkIngress, getItem, lookupKey, dictGet,
      isResolved, jLower, pyStr, h1, h2, h3]
  · intro h1 h2 h3
    simp only [Bool.or_eq_false_iff] at h3
    simp [process_prometheus_alert, mkIngress, getItem, lookupKey, dictGet,
      isResolved, jLower, pyStr, h1, h2, h3]

/-- Witness for C5 at a concrete input: a resolved `Disk` alert routes to the
recovery wrapper. -/
theorem c5_routing_witness :
    ("resolved" : String) = "resolved" ∧
    process_prometheus_alert (mkIngress "Disk" "resolved" "") =
      .ok (.success_alert "Disk" ("Alert resolved: " ++ "")) :=
  ⟨rfl, (c5_routing "Disk" "resolved" "").1 rfl⟩

theorem processAlertsLoop_split (bad : Json) (rest : List Json) (e : String)
    (hbad : process_prometheus_alert bad = .error e) :
    ∀ (good : List Json) (goodCalls acc : List NotifyCall),
      good.map process_prometheus_alert = goodCalls.map Except.ok →
      processAlertsLoop (good ++ bad :: rest) acc = (acc ++ goodCalls, some e) := by
  intro good
  induction good with
  | nil =>
    intro goodCalls acc hmap
    have hnil : goodCalls = [] := by
      cases goodCalls with
      | nil => rfl
      | cons c cs => simp at hmap
    subst hnil
    simp [processAlertsLoop, hbad]
  | cons a as ih =>
    intro goodCalls acc hmap
    cases goodCalls with
    | nil => simp at hmap
    | cons c cs =>
      simp only [List.map_cons, List.cons.injEq] at hmap
      obtain ⟨h1, h2⟩ := hmap
      simp only [List.cons_append, processAlertsLoop, h1, List.append_eq]
      rw [ih cs (acc ++ [c]) h2]
      simp

/-- Claim C10: batch processing is not atomic — elements are forwarded one at
a time in list order, so when an element raises (e.g. a `KeyError` for a
missing key), the endpoint answers 500 with the exception text, but every
earlier element has already been routed and its wrapper call made. -/
theorem c10_batch_not_atomic (good : List Json) (goodCalls : List NotifyCall)
    (bad : Json) (rest : List Json) (e : String)
    (hgood : good.map process_prometheus_alert = goodCalls.map Except.ok)
    (hbad : process_prometheus_alert bad = .error e) :
    handle_alert (.ok (.obj [("alerts", .arr (good ++ bad :: rest))])) =
      ⟨500, some e, goodCalls⟩ := by
  have hloop := processAlertsLoop_split bad rest e hbad good goodCalls [] hgood
  simp only [List.nil_append] at hloop
  rw [show handle_alert (.ok (.obj [("alerts", .arr (good ++ bad :: rest))])) =
      (match processAlertsLoop (good ++ bad :: rest) [] with
       | (calls, none) => ⟨200, none, calls⟩
       | (calls, some e2) => ⟨500, some e2, calls⟩) from rfl, hloop]

/-- Witness for C10 at a concrete input: a well-formed database alert
followed by an element lacking `labels` yields 500 with the first alert
already routed to the database wrapper. -/
theorem c10_batch_not_atomic_witness :
    handle_alert (.ok (.obj [("alerts", .arr
        ([mkIngress "DatabaseDown" "firing" "db gone"] ++ Json.obj [] :: []))])) =
      ⟨500, some "KeyError: labels",
        [.database_alert "DatabaseDown" "Problem detected" "Normal" "db gone"]⟩ :=
  c10_batch_not_atomic [mkIngress "DatabaseDown" "firing" "db gone"]
    [.database_alert "DatabaseDown" "Problem detected" "Normal" "db gone"]
    (Json.obj []) [] "KeyError: labels" rfl rfl

/-- Claim C7: the monitoring loop never returns — after any number of
iterations the run is still going (one sleep per completed iteration), a
normal `check_alerts` outcome sleeps the 30-second interval, and a raised
exception is caught (not propagated) and sleeps the 10-second fallback. -/
theorem c7_loop_never_returns (ticks : Nat → Except String Unit) (n : Nat) :
    (∃ sleeps, start_monitoring_run ticks n = some sleeps ∧ sleeps.length = n) ∧
    (∀ u, ticks n = .ok u → start_monitoring_iteration (ticks n) = .continueAfter 30) ∧
    ∀ e, ticks n = .error e → start_monitoring_iteration (ticks n) = .continueAfter 10 := by
  refine ⟨?_, ?_, ?_⟩
  · induction n with
    | zero => exact ⟨[], rfl, rfl⟩
    | succ m ih =>
      obtain ⟨sleeps, hrun, hlen⟩ := ih
      rcases ht : ticks m with e | u
      · refine ⟨sleeps ++ [10], ?_, by simp [hlen]⟩
        simp [start_monitoring_run, hrun, start_monitoring_iteration, ht]
      · refine ⟨sleeps ++ [30], ?_, by simp [hlen]⟩
        simp [start_monitoring_run, hrun, start_monitoring_iteration, ht,
          MONITORING_INTERVAL]
  · intro u hu
    rw [hu]
    rfl
  · intro e he
    rw [he]
    rfl

/-- Witness for C7 at concrete inputs: a successful iteration continues
after 30 seconds; a raising iteration continues after 10 seconds. -/
theorem c7_loop_never_returns_witness :
    start_monitoring_iteration ((fun _ => Except.ok ()) 0) = .continueAfter 30 ∧
    start_monitoring_iteration ((fun _ => Except.error "boom") 0) = .continueAfter 10 :=
  ⟨(c7_loop_never_returns (fun _ => Except.ok ()) 0).2.1 () rfl,
    (c7_loop_never_returns (fun _ => Except.error "boom") 0).2.2 "boom" rfl⟩

/-- Claim C6: in a tick where the weather fetch raises, the weather status
gauge becomes 0 and the weather error counter increments by exactly 1, while
the crypto, exchange-rate and static fetches of the same tick still run and
complete normally (their gauges are all set as usual — the weather failure
does not propagate out of `fetch_weather_data`). -/
theorem c6_weather_failure_isolated (s : ExporterState) (u tnow : ℚ)
    (emsg : String) (btc btcCap eth ethCap r1 r2 : ℚ) :
    (main_loop_tick ⟨u, .error emsg, .ok (cryptoJson btc btcCap eth ethCap),
        .ok (ratesJson r1), .ok (ratesJson r2), tnow⟩ s).weather_api_status = some 0 ∧
    (main_loop_tick ⟨u, .error emsg, .ok (cryptoJson btc btcCap eth ethCap),
        .ok (ratesJson r1), .ok (ratesJson r2), tnow⟩ s).api_errors_weather =
      s.api_errors_weather + 1 ∧
    (main_loop_tick ⟨u, .error emsg, .ok (cryptoJson btc btcCap eth ethCap),
        .ok (ratesJson r1), .ok (ratesJson r2), tnow⟩ s).crypto_bitcoin_price = some btc ∧
    (main_loop_tick ⟨u, .error emsg, .ok (cryptoJson btc btcCap eth ethCap),
        .ok (ratesJson r1), .ok (ratesJson r2), tnow⟩ s).crypto_ethereum_price = some eth ∧
    (main_loop_tick ⟨u, .error emsg, .ok (cryptoJson btc btcCap eth ethCap),
        .ok (ratesJson r1), .ok (ratesJson r2), tnow⟩ s).crypto_market_cap =
      some (btcCap + ethCap) ∧
    (main_loop_tick ⟨u, .error emsg, .ok (cryptoJson btc btcCap eth ethCap),
        .ok (ratesJson r1), .ok (ratesJson r2), tnow⟩ s).crypto_api_status = some 1 ∧
    (main_loop_tick ⟨u, .error emsg, .ok (cryptoJson btc btcCap eth ethCap),
        .ok (ratesJson r1), .ok (ratesJson r2), tnow⟩ s).exchange_rate_usd = some r1 ∧
    (main_loop_tick ⟨u, .error emsg, .ok (cryptoJson btc btcCap eth ethCap),
        .ok (ratesJson r1), .ok (ratesJson r2), tnow⟩ s).exchange_rate_eur = some r2 ∧
    (main_loop_tick ⟨u, .error emsg, .ok (cryptoJson btc btcCap eth ethCap),
        .ok (ratesJson r1), .ok (ratesJson r2), tnow⟩ s).astana_population =
      some 1300000 ∧
    (main_loop_tick ⟨u, .error emsg, .ok (cryptoJson btc btcCap eth ethCap),
        .ok (ratesJson r1), .ok (ratesJson r2), tnow⟩ s).current_timestamp = some tnow ∧
    (main_loop_tick ⟨u, .error emsg, .ok (cryptoJson btc btcCap eth ethCap),
        .ok (ratesJson r1), .ok (ratesJson r2), tnow⟩ s).exporter_uptime = some u :=
  ⟨rfl, rfl, rfl, rfl, rfl, rfl, rfl, rfl, rfl, rfl, rfl⟩

/-- Claim C8: on a successful fetch each exchange-rate gauge is set to
exactly the rate parsed from its API response (no unit conversion), and the
weather visibility gauge is set to exactly the first raw hourly visibility
value divided by 1000. -/
theorem c8_exact_values (s s2 : ExporterState) (r1 r2 t w h vis : ℚ)
    (hums viss : List Json) :
    (fetch_exchange_rates (.ok (ratesJson r1)) (.ok (ratesJson r2)) s).2.exchange_rate_usd =
      some r1 ∧
    (fetch_exchange_rates (.ok (ratesJson r1)) (.ok (ratesJson r2)) s).2.exchange_rate_eur =
      some r2 ∧
    (fetch_weather_data
        (.ok (weatherJson t w (.num h :: hums) (.num vis :: viss))) s2).2.weather_visibility =
      some (vis / 1000) ∧
    (fetch_weather_data
        (.ok (weatherJson t w (.num h :: hums) (.num vis :: viss))) s2).2.weather_temperature =
      some t :=
  ⟨rfl, rfl, rfl, rfl⟩
